import Mathlib

/-!
# Shallow embedding of `scanserv.py`

A verification development for the scanserv command-line scanner client
(single source file `src/scanserv.py`).  The program is sequential glue
code over four HTTP endpoints plus local file I/O, so we embed it as pure
functions from an explicit environment (the HTTP responses the server
would give) to a result together with a trace of observable events:
console prints, HTTP requests, directory creation, file writes and
process exits.

Conventions of the embedding:
* Python `None`-able strings become `Option String`; Python truthiness of
  a string (`if s:`) is `some s` with `s ≠ ""`.
* `os.makedirs(dir, exist_ok=True)` (recursive, idempotent directory
  creation) is recorded as the single event `Event.makeDirs dir`.
* `sys.exit(1)` is recorded as `Event.exit 1` and aborts the control flow
  (modelled with the `Outcome` type).
* HTTP bodies are already-decoded JSON values of the shape each call
  expects; file contents are modelled as `String`.
* `int(x)` follows Python semantics on the modelled value space: the
  identity on ints, and on strings it strips surrounding whitespace and
  accepts an optional sign followed by digits possibly grouped by single
  underscores (non-ASCII digits are outside the modelled value space).
* `os.path.join` is modelled with POSIX semantics for the two-argument
  calls the program makes.
-/

namespace Scanserv

/-- A scan device as returned by `GET /api/v1/context` (fields `id`, `name`). -/
structure Device where
  id : String
  name : String
deriving Repr, DecidableEq

/-- A remote file entry as returned by `GET /api/v1/files`. -/
structure RemoteFile where
  name : String
  sizeString : String
deriving Repr, DecidableEq

/-- The `params` object of the scan request built by `Scanner.scan_a4`. -/
structure ScanParams where
  deviceId : String
  resolution : Int
  mode : String
  width : Int
  height : Int
  pageWidth : Int
  pageHeight : Int
  top : Int
  left : Int
deriving Repr, DecidableEq

/-- The JSON body POSTed to `/api/v1/scan`. -/
structure ScanRequest where
  params : ScanParams
  pipeline : String
deriving Repr, DecidableEq

/-- The `file` object of a successful scan response, carrying the server-side file name. -/
structure ScanFileInfo where
  name : String
deriving Repr, DecidableEq

/-- Observable events of a program run. -/
inductive Event where
  | print (line : String)
  | httpGet (url : String)
  | httpPost (url : String) (body : ScanRequest)
  | makeDirs (dir : String)
  | writeFile (path : String) (content : String)
  | exit (code : Nat)
deriving Repr, DecidableEq

/-- Result of one HTTP call: either a response with a status code, a
decoded body of the shape the caller expects and the raw text, or a
network-level failure (`requests.exceptions.RequestException`). -/
inductive Resp (α : Type) where
  | success (status : Nat) (body : α) (text : String)
  | connError (msg : String)
deriving Repr, DecidableEq

/-- Normal continuation or process termination via `sys.exit`. -/
inductive Outcome (α : Type) where
  | normal (a : α)
  | exited (code : Nat)
deriving Repr, DecidableEq

/-- Python truthiness of an optional string: `None` and `""` are falsy. -/
def strOptTruthy : Option String → Bool
  | none => false
  | some s => s ≠ ""

/-- Whitespace accepted by Python `int()` around the digits. -/
def isPySpace (c : Char) : Bool :=
  c = ' ' || c = '\t' || c = '\n' || c = '\r' || c = '\x0b' || c = '\x0c'

/-- Numeric value of a decimal digit character. -/
def digitVal (c : Char) : Nat := c.toNat - 48

/-- Continuation of a digit run: digits, possibly separated by single
underscores (Python `int` literal grouping). -/
def digitsRest : Nat → List Char → Option Nat
  | acc, [] => some acc
  | acc, '_' :: c :: cs =>
    if c.isDigit then digitsRest (acc * 10 + digitVal c) cs else none
  | acc, c :: cs =>
    if c.isDigit then digitsRest (acc * 10 + digitVal c) cs else none

/-- A nonempty digit run with optional single-underscore grouping. -/
def digitPart : List Char → Option Nat
  | [] => none
  | c :: cs => if c.isDigit then digitsRest (digitVal c) cs else none

/-- Python `int(s)` on a string: surrounding whitespace, optional sign,
digit run; `none` models the `ValueError`. -/
def pyIntStr (s : String) : Option Int :=
  let cs := s.toList.dropWhile isPySpace
  let cs := (cs.reverse.dropWhile isPySpace).reverse
  match cs with
  | '+' :: rest => (digitPart rest).map (fun n => (n : Int))
  | '-' :: rest => (digitPart rest).map (fun n => -(n : Int))
  | rest => (digitPart rest).map (fun n => (n : Int))

/-- The values `int()` is applied to in the program: ints (from argparse)
or strings. -/
inductive PyVal where
  | int (i : Int)
  | str (s : String)
deriving Repr, DecidableEq

/-- Python `int(x)`: identity on ints, string parse on strings. -/
def pyInt : PyVal → Option Int
  | .int i => some i
  | .str s => pyIntStr s

/-- Whether a string starts with the POSIX separator `/`. -/
def startsWithSlash (s : String) : Bool :=
  match s.toList with
  | [] => false
  | c :: _ => c = '/'

/-- Whether a string ends with the POSIX separator `/`. -/
def endsWithSlash (s : String) : Bool :=
  match s.toList.reverse with
  | [] => false
  | c :: _ => c = '/'

/-- Python `os.path.join(a, b)` with POSIX semantics: `b` when `b` is absolute,
otherwise `a ++ b` when `a` is empty or ends with the separator, and
`a ++ "/" ++ b` otherwise. -/
def osPathJoin (a b : String) : String :=
  if startsWithSlash b then b
  else if a = "" || endsWithSlash a then a ++ b
  else a ++ "/" ++ b

/-! ## Configuration loader (`load_config`) -/

/-- The `[scan]` section of the TOML config (keys may be absent). -/
structure ScanSection where
  resolution : Option Int
  mode : Option String
  quality : Option String
deriving Repr, DecidableEq

/-- The `[files]` section of the TOML config (keys may be absent). -/
structure FilesSection where
  output_dir : Option String
deriving Repr, DecidableEq

/-- A parsed configuration dictionary; each top-level key may be absent.
(The modelled value space types each section; the program only ever tests
top-level key presence.) -/
structure ConfigDict where
  server : Option String
  device : Option Int
  scan : Option ScanSection
  files : Option FilesSection
deriving Repr, DecidableEq

/-- The built-in `defaults` dictionary of `load_config`. -/
def defaults : ConfigDict :=
  { server := some "http://scan.home"
    device := some 1
    scan := some { resolution := some 200, mode := some "Color", quality := some "high" }
    files := some { output_dir := some "scans" } }

/-- State of the config file at the platform-specific path: absent,
present but unreadable/unparseable (the caught `Exception`, with its
message), or parsed to a dictionary. -/
inductive ConfigFileState where
  | absent
  | malformed (err : String)
  | parsed (c : ConfigDict)
deriving Repr, DecidableEq

/-- Model of `load_config()`: defaults when the file is absent or malformed (with
a warning print); otherwise the parsed dictionary with the `scan`,
`files` and `device` keys backfilled from defaults when missing. -/
def load_config : ConfigFileState → ConfigDict × List Event
  | .absent => (defaults, [])
  | .malformed e =>
    (defaults, [Event.print ("Warning: Error reading config file: " ++ e)])
  | .parsed c =>
    ({ c with
        scan := if c.scan.isNone then defaults.scan else c.scan
        files := if c.files.isNone then defaults.files else c.files
        device := if c.device.isNone then defaults.device else c.device }, [])

/-! ## The `Scanner` class -/

/-- The mutable state of a `Scanner` instance. -/
structure Scanner where
  server_url : String
  device_id : Option String
  devices : List Device
deriving Repr, DecidableEq

/-- URL of `GET /api/v1/context`. -/
def ctxUrl (s : Scanner) : String := s.server_url ++ "/api/v1/context"

/-- URL of `GET /api/v1/files`. -/
def filesUrl (s : Scanner) : String := s.server_url ++ "/api/v1/files"

/-- URL of `GET /api/v1/files/<filename>`. -/
def fileUrl (s : Scanner) (filename : String) : String :=
  s.server_url ++ "/api/v1/files/" ++ filename

/-- URL of `POST /api/v1/scan`. -/
def scanUrl (s : Scanner) : String := s.server_url ++ "/api/v1/scan"

/-- The three prints of the `for i, device in enumerate(self.devices, 1)`
loop of `list_scanners`, for each device. -/
def deviceListing : Nat → List Device → List Event
  | _, [] => []
  | i, d :: ds =>
    Event.print (toString i ++ ". ID: " ++ d.id) ::
    Event.print ("   Name: " ++ d.name) ::
    Event.print "" ::
    deviceListing (i + 1) ds

/-- Model of `Scanner.list_scanners`: GET the context; on status 200 cache
`devices` from the body (defaulting to the empty list when the key is missing) and print
the enumerated listing; otherwise print the error and return `[]`. -/
def Scanner.list_scanners (s : Scanner) (resp : Resp (Option (List Device))) :
    List Device × Scanner × List Event :=
  match resp with
  | .success status body _ =>
    if status = 200 then
      let devs := body.getD []
      (devs, { s with devices := devs },
        Event.httpGet (ctxUrl s) :: Event.print "Available scanners:" ::
          deviceListing 1 devs)
    else
      ([], s, [Event.httpGet (ctxUrl s), Event.print ("Error: " ++ toString status)])
  | .connError msg =>
    ([], s, [Event.httpGet (ctxUrl s), Event.print ("Connection error: " ++ msg)])

/-- Model of `Scanner.select_scanner(device_number)`: list the scanners first when
none are cached; exit 1 when the list is still empty; otherwise convert
`device_number` with `int()` (a `ValueError` exits 1) and select the
1-based index when it is in range (recording the id of the device and printing
its name), exiting 1 otherwise. -/
def Scanner.select_scanner (s : Scanner) (device_number : PyVal)
    (resp : Resp (Option (List Device))) : Outcome Scanner × List Event :=
  let listed :=
    if s.devices.isEmpty then
      let r := s.list_scanners resp
      (r.2.1, r.2.2)
    else (s, ([] : List Event))
  let s1 := listed.1
  let evts1 := listed.2
  if s1.devices.isEmpty then
    (.exited 1, evts1 ++ [Event.print "No scanners found", Event.exit 1])
  else
    match pyInt device_number with
    | some v =>
      let index := v - 1
      if 0 ≤ index ∧ index < (s1.devices.length : Int) then
        let d := s1.devices.getD index.toNat ⟨"", ""⟩
        (.normal { s1 with device_id := some d.id },
          evts1 ++ [Event.print ("Selected scanner: " ++ d.name)])
      else
        (.exited 1,
          evts1 ++ [Event.print ("Invalid scanner number. Please choose between 1 and "
            ++ toString s1.devices.length), Event.exit 1])
    | none =>
      (.exited 1, evts1 ++ [Event.print "Invalid scanner number", Event.exit 1])

/-- Model of `Scanner.list_files`: GET the file list; on status 200 print
`- name (sizeString)` per entry when the list is nonempty and return it;
otherwise print the error and return `[]`. -/
def Scanner.list_files (s : Scanner) (resp : Resp (List RemoteFile)) :
    List RemoteFile × List Event :=
  match resp with
  | .success status body _ =>
    if status = 200 then
      if body.isEmpty then (body, [Event.httpGet (filesUrl s)])
      else
        (body, Event.httpGet (filesUrl s) :: Event.print "\nFiles on server:" ::
          (body.map fun f => Event.print ("- " ++ f.name ++ " (" ++ f.sizeString ++ ")"))
          ++ [Event.print ""])
    else
      ([], [Event.httpGet (filesUrl s), Event.print ("Error: " ++ toString status)])
  | .connError msg =>
    ([], [Event.httpGet (filesUrl s), Event.print ("Connection error: " ++ msg)])

/-- Model of `Scanner.download_file(filename, output_dir)`: GET the file; on
status 200 the local path is `os.path.join(output_dir, filename)` when
`output_dir` is truthy and `filename` otherwise, the output directory is
created (when truthy) before the content is written, and the path is
returned; on a bad status or connection error a diagnostic is printed and
`None` returned. -/
def Scanner.download_file (s : Scanner) (filename : String)
    (output_dir : Option String) (resp : Resp String) :
    Option String × List Event :=
  match resp with
  | .success status content _ =>
    if status = 200 then
      let local_path :=
        if strOptTruthy output_dir then osPathJoin (output_dir.getD "") filename
        else filename
      (some local_path,
        Event.httpGet (fileUrl s filename) ::
          (if strOptTruthy output_dir then [Event.makeDirs (output_dir.getD "")] else [])
          ++ [Event.writeFile local_path content])
    else
      (none, [Event.httpGet (fileUrl s filename),
        Event.print ("Error downloading " ++ filename ++ ": " ++ toString status)])
  | .connError msg =>
    (none, [Event.httpGet (fileUrl s filename),
      Event.print ("Connection error downloading " ++ filename ++ ": " ++ msg)])

/-- The `for file_info in files` loop of `download_all`: download each
file (the per-file HTTP response is supplied by `respFor`), printing the
saved path when the download returned a truthy path. -/
def downloadLoop (s : Scanner) (output_dir : Option String)
    (respFor : String → Resp String) : List RemoteFile → List Event
  | [] => []
  | f :: fs =>
    let r := s.download_file f.name output_dir (respFor f.name)
    Event.print ("Downloading " ++ f.name ++ "...") :: r.2
      ++ (if strOptTruthy r.1 then [Event.print ("Saved to: " ++ r.1.getD "")] else [])
      ++ downloadLoop s output_dir respFor fs

/-- Model of `Scanner.download_all(output_dir)`: create the output directory when
truthy, list the files, report when none were found, otherwise print the
count and download each file in turn. -/
def Scanner.download_all (s : Scanner) (output_dir : Option String)
    (respFiles : Resp (List RemoteFile)) (respFor : String → Resp String) :
    List Event :=
  let mk := if strOptTruthy output_dir then [Event.makeDirs (output_dir.getD "")] else []
  let r := s.list_files respFiles
  let files := r.1
  if files.isEmpty then mk ++ r.2 ++ [Event.print "No files found on server"]
  else
    mk ++ r.2 ++ [Event.print ("Found " ++ toString files.length ++ " files")]
      ++ downloadLoop s output_dir respFor files

/-- The scan request body built by `scan_a4` (A4 geometry is fixed). -/
def mkScanRequest (deviceId : String) (resolution : Int) (mode quality : String) :
    ScanRequest :=
  { params :=
      { deviceId := deviceId
        resolution := resolution
        mode := mode
        width := 210
        height := 297
        pageWidth := 210
        pageHeight := 297
        top := 0
        left := 0 }
    pipeline := "JPG | @:pipeline." ++ quality ++ "-quality" }

/-- Model of `Scanner.scan_a4(output_dir, resolution, mode, quality)`: refuse with
a message when no device id is set (Python truthiness); create the output
directory when truthy; POST the fixed-geometry A4 request; on status 200
with a `file` key optionally download it (whenever `output_dir` is not
`None`, the per-file response supplied by `dl`), returning the local path
when the download returned a truthy path; otherwise print diagnostics and
return `None`. -/
def Scanner.scan_a4 (s : Scanner) (output_dir : Option String)
    (resolution : Int) (mode quality : String)
    (resp : Resp (Option ScanFileInfo)) (dl : String → Resp String) :
    Option String × List Event :=
  if ¬ strOptTruthy s.device_id then
    (none, [Event.print "No scanner selected. Use --device to select a scanner."])
  else
    let mk := if strOptTruthy output_dir then [Event.makeDirs (output_dir.getD "")] else []
    let req := mkScanRequest (s.device_id.getD "") resolution mode quality
    let pre := mk ++ [Event.print "Scanning...", Event.httpPost (scanUrl s) req]
    match resp with
    | .success status body text =>
      if status = 200 then
        match body with
        | some fi =>
          let head := pre ++ [Event.print "Scan successful!",
            Event.print ("File on server: " ++ fi.name)]
          match output_dir with
          | some od =>
            let r := s.download_file fi.name (some od) (dl fi.name)
            if strOptTruthy r.1 then
              (r.1, head ++ [Event.print "Downloading..."] ++ r.2
                ++ [Event.print ("Saved to: " ++ r.1.getD "")])
            else
              (none, head ++ [Event.print "Downloading..."] ++ r.2)
          | none => (none, head)
        | none =>
          (none, pre ++ [Event.print "Scan completed but no file information returned"])
      else
        (none, pre ++ [Event.print ("Error: " ++ toString status), Event.print text])
    | .connError msg => (none, pre ++ [Event.print ("Connection error: " ++ msg)])

/-! ## The `main` entry point

`main` is modelled after argparse has run: `args` carries the parsed
flag values (argparse itself exits with status 2 on an unparseable
`--device` or an invalid choice, before the body of `main` runs; that stage is
outside the model).  `noArgs` is the `not len(sys.argv) > 1` test.  The
environment supplies one response per endpoint (each endpoint is queried
with the same response wherever it is hit in a run). -/

/-- Parsed command-line arguments (after config defaults were applied). -/
structure Args where
  server : String
  device : Int
  list : Bool
  scan : Bool
  no_download : Bool
  download_all : Bool
  download : Option String
  output_dir : Option String
  resolution : Int
  mode : String
  quality : String
deriving Repr

/-- The HTTP environment of a run: responses for the context listing, the
file listing, each file download (by name), and the scan POST. -/
structure Env where
  ctx : Resp (Option (List Device))
  files : Resp (List RemoteFile)
  fileContent : String → Resp String
  scanResp : Resp (Option ScanFileInfo)

/-- The device list a run observes from the context endpoint. -/
def listedDevices (env : Env) : List Device :=
  match env.ctx with
  | .success status body _ => if status = 200 then body.getD [] else []
  | .connError _ => []

/-- The `--scan` branch of `main`: select the device, then scan
(downloading unless `--no-download`). -/
def mainScanPhase (scanner : Scanner) (args : Args) (env : Env) :
    Outcome Scanner × List Event :=
  if args.scan then
    let r := scanner.select_scanner (PyVal.int args.device) env.ctx
    match r.1 with
    | .exited c => (.exited c, r.2)
    | .normal s1 =>
      let r2 := s1.scan_a4 (if args.no_download then none else args.output_dir)
        args.resolution args.mode args.quality env.scanResp env.fileContent
      (.normal s1, r.2 ++ r2.2)
  else (.normal scanner, [])

/-- The `--download FILENAME` branch of `main`. -/
def mainDownloadOne (scanner : Scanner) (args : Args) (env : Env) : List Event :=
  match args.download with
  | none => []
  | some fn =>
    if fn = "" then []
    else
      let r := scanner.download_file fn args.output_dir (env.fileContent fn)
      r.2 ++
        (if strOptTruthy r.1 then
          [Event.print ("Downloaded " ++ fn ++ " "
            ++ (if strOptTruthy args.output_dir then "to " ++ args.output_dir.getD ""
                else "to current directory"))]
        else [])

/-- Model of `main()` after argument parsing: returns the process exit status and
the event trace.  With no arguments or `--list`, list scanners and files
and return; otherwise run the `--scan`, `--download-all` and
`--download` branches in order (the latter two only when the scan branch
did not exit). -/
def main (noArgs : Bool) (args : Args) (env : Env) : Nat × List Event :=
  let scanner : Scanner := { server_url := args.server, device_id := none, devices := [] }
  if noArgs || args.list then
    let r1 := scanner.list_scanners env.ctx
    let r2 := r1.2.1.list_files env.files
    (0, r1.2.2 ++ r2.2)
  else
    let r := mainScanPhase scanner args env
    match r.1 with
    | .exited c => (c, r.2)
    | .normal s1 =>
      let e3 := if args.download_all then s1.download_all args.output_dir env.files env.fileContent
        else []
      (0, r.2 ++ e3 ++ mainDownloadOne s1 args env)

/-- Whether an event is an HTTP request (GET or POST). -/
def Event.isHttp : Event → Bool
  | .print _ => false
  | .httpGet _ => true
  | .httpPost _ _ => true
  | .makeDirs _ => false
  | .writeFile _ _ => false
  | .exit _ => false

/-- Whether an event is an HTTP POST. -/
def Event.isPost : Event → Bool
  | .print _ => false
  | .httpGet _ => false
  | .httpPost _ _ => true
  | .makeDirs _ => false
  | .writeFile _ _ => false
  | .exit _ => false

/-! ## Theorems -/

/-- C6: when no configuration file exists at the platform-specific path,
`load_config` returns exactly
`{server: "http://scan.home", device: 1,
  scan: {resolution: 200, mode: "Color", quality: "high"},
  files: {output_dir: "scans"}}`. -/
theorem C6_absent_config_defaults :
    load_config ConfigFileState.absent =
      ({ server := some "http://scan.home"
         device := some 1
         scan := some { resolution := some 200, mode := some "Color", quality := some "high" }
         files := some { output_dir := some "scans" } }, []) := rfl

/-- C5 counterexample: a parseable configuration file with no top-level
keys at all is returned with its `server` key still absent — the
"every field resolves to a value, with each missing key backfilled from
the built-in defaults" fails for the `server` key, whose default is
`"http://scan.home"`. -/
theorem C5_counterexample :
    (load_config (ConfigFileState.parsed ⟨none, none, none, none⟩)).1.server = none ∧
    defaults.server = some "http://scan.home" := ⟨rfl, rfl⟩

/-- C5 (amended): `load_config` always returns (it is total; no state
raises); an absent or malformed file yields exactly the defaults (the
partially-read file is discarded, not merged); for a parseable file the
top-level keys `scan`, `files` and `device` are backfilled from defaults
when missing and kept as found otherwise — so all three are present in
the result — but the `server` key is returned exactly as found in the
file and is NOT backfilled when missing. -/
theorem C5_load_config_backfill (c : ConfigDict) (e : String) :
    (load_config ConfigFileState.absent).1 = defaults ∧
    (load_config (ConfigFileState.malformed e)).1 = defaults ∧
    (load_config (ConfigFileState.parsed c)).1.scan
      = (if c.scan.isNone then defaults.scan else c.scan) ∧
    (load_config (ConfigFileState.parsed c)).1.files
      = (if c.files.isNone then defaults.files else c.files) ∧
    (load_config (ConfigFileState.parsed c)).1.device
      = (if c.device.isNone then defaults.device else c.device) ∧
    (load_config (ConfigFileState.parsed c)).1.scan.isSome = true ∧
    (load_config (ConfigFileState.parsed c)).1.files.isSome = true ∧
    (load_config (ConfigFileState.parsed c)).1.device.isSome = true ∧
    (load_config (ConfigFileState.parsed c)).1.server = c.server := by
  refine ⟨rfl, rfl, rfl, rfl, rfl, ?_, ?_, ?_, rfl⟩
  · cases h : c.scan <;> simp [load_config, defaults, h]
  · cases h : c.files <;> simp [load_config, defaults, h]
  · cases h : c.device <;> simp [load_config, defaults, h]

/-- C2: when no device has been selected (`device_id` unset), `scan_a4`
prints a user-visible message and returns `None`, and its trace contains
no HTTP request at all. -/
theorem C2_scan_a4_no_device (s : Scanner) (h : s.device_id = none)
    (od : Option String) (r : Int) (m q : String)
    (resp : Resp (Option ScanFileInfo)) (dl : String → Resp String) :
    s.scan_a4 od r m q resp dl =
      (none, [Event.print "No scanner selected. Use --device to select a scanner."]) ∧
    ∀ e ∈ (s.scan_a4 od r m q resp dl).2, e.isHttp = false := by
  have heq : s.scan_a4 od r m q resp dl =
      (none, [Event.print "No scanner selected. Use --device to select a scanner."]) := by
    simp [Scanner.scan_a4, h, strOptTruthy]
  refine ⟨heq, ?_⟩
  rw [heq]
  intro e he
  simp only [List.mem_singleton] at he
  subst he
  rfl

/-- C2 witness: a concrete scanner with no selected device. -/
theorem C2_scan_a4_no_device_witness :
    Scanner.scan_a4 ⟨"http://scan.home", none, []⟩ (some "scans") 200 "Color" "high"
        (Resp.success 200 (some ⟨"scan.jpg"⟩) "") (fun _ => Resp.connError "down") =
      (none, [Event.print "No scanner selected. Use --device to select a scanner."]) :=
  (C2_scan_a4_no_device ⟨"http://scan.home", none, []⟩ rfl (some "scans") 200 "Color" "high"
    (Resp.success 200 (some ⟨"scan.jpg"⟩) "") (fun _ => Resp.connError "down")).1

/-- The trace of `download_file` never contains an HTTP POST. -/
lemma download_file_no_post (s : Scanner) (fn : String) (od : Option String)
    (resp : Resp String) :
    (s.download_file fn od resp).2.filter Event.isPost = [] := by
  cases resp with
  | success status content text =>
    by_cases h : status = 200
    · by_cases ht : strOptTruthy od = true <;>
        simp [Scanner.download_file, h, ht, Event.isPost]
    · simp [Scanner.download_file, h, Event.isPost]
  | connError msg => simp [Scanner.download_file, Event.isPost]

/-- The trace of `download_file` always contains the GET of the file URL
(the download is attempted whatever the response). -/
lemma download_file_get_mem (s : Scanner) (fn : String) (od : Option String)
    (resp : Resp String) :
    Event.httpGet (fileUrl s fn) ∈ (s.download_file fn od resp).2 := by
  cases resp with
  | success status content text =>
    by_cases h : status = 200 <;> simp [Scanner.download_file, h]
  | connError msg => simp [Scanner.download_file]

/-- C1: with a device selected, for every `scan_a4` invocation the POSTs
of the trace are exactly one request to `<server>/api/v1/scan` whose body
is `{params: {deviceId: <selected id>, resolution, mode, width: 210,
height: 297, pageWidth: 210, pageHeight: 297, top: 0, left: 0},
pipeline: "JPG | @:pipeline.<quality>-quality"}`. -/
theorem C1_scan_request_body (s : Scanner) (sid : String)
    (hid : s.device_id = some sid) (hne : sid ≠ "")
    (od : Option String) (r : Int) (m q : String)
    (resp : Resp (Option ScanFileInfo)) (dl : String → Resp String) :
    (s.scan_a4 od r m q resp dl).2.filter Event.isPost =
      [Event.httpPost (s.server_url ++ "/api/v1/scan")
        { params :=
            { deviceId := sid, resolution := r, mode := m, width := 210, height := 297,
              pageWidth := 210, pageHeight := 297, top := 0, left := 0 }
          pipeline := "JPG | @:pipeline." ++ q ++ "-quality" }] := by
  cases resp with
  | success status body text =>
    by_cases hst : status = 200
    · cases body with
      | some fi =>
        cases od with
        | none =>
          simp [Scanner.scan_a4, hid, hne, hst, scanUrl, mkScanRequest, Event.isPost,
            strOptTruthy, List.filter_append]
        | some d =>
          have hnp := download_file_no_post s fi.name (some d) (dl fi.name)
          simp [Scanner.scan_a4, hid, hne, hst, scanUrl, mkScanRequest, Event.isPost,
            strOptTruthy, List.filter_append, hnp, apply_ite Prod.snd,
            apply_ite (List.filter Event.isPost)]
      | none =>
        simp [Scanner.scan_a4, hid, hne, hst, scanUrl, mkScanRequest, Event.isPost,
          strOptTruthy, List.filter_append, apply_ite (List.filter Event.isPost)]
    · simp [Scanner.scan_a4, hid, hne, hst, scanUrl, mkScanRequest, Event.isPost,
        strOptTruthy, List.filter_append, apply_ite (List.filter Event.isPost)]
  | connError msg =>
    simp [Scanner.scan_a4, hid, hne, scanUrl, mkScanRequest, Event.isPost,
      strOptTruthy, List.filter_append, apply_ite (List.filter Event.isPost)]

/-- C1 witness: the concrete scenario of the claim, `resolution=200,
mode="Color", quality="high"` with device `dev1` selected and an
output directory set. -/
theorem C1_scan_request_body_witness :
    (Scanner.scan_a4 ⟨"http://scan.home", some "dev1", []⟩ (some "scans") 200 "Color" "high"
        (Resp.success 200 (some ⟨"scan.jpg"⟩) "")
        (fun _ => Resp.success 200 "DATA" "")).2.filter Event.isPost =
      [Event.httpPost "http://scan.home/api/v1/scan"
        { params :=
            { deviceId := "dev1", resolution := 200, mode := "Color", width := 210,
              height := 297, pageWidth := 210, pageHeight := 297, top := 0, left := 0 }
          pipeline := "JPG | @:pipeline.high-quality" }] :=
  C1_scan_request_body ⟨"http://scan.home", some "dev1", []⟩ "dev1" rfl (by decide)
    (some "scans") 200 "Color" "high" (Resp.success 200 (some ⟨"scan.jpg"⟩) "")
    (fun _ => Resp.success 200 "DATA" "")

/-- C7: `download_file(name, output_dir)` on HTTP 200 writes the content
to `join(output_dir, name)` when a (truthy) output directory is supplied
— creating it, recursively and idempotently (`makeDirs`), before the
write — and to the bare `name` in the current directory when it is
absent, returning the written path; on a non-200 status or a connection
error it prints a diagnostic and returns `None`. -/
theorem C7_download_file_cases (s : Scanner) (fn : String) (od : Option String)
    (resp : Resp String) :
    (∀ content text, resp = Resp.success 200 content text →
      (od = none →
        s.download_file fn od resp =
          (some fn, [Event.httpGet (fileUrl s fn), Event.writeFile fn content])) ∧
      (∀ d, od = some d → d ≠ "" →
        s.download_file fn od resp =
          (some (osPathJoin d fn),
            [Event.httpGet (fileUrl s fn), Event.makeDirs d,
             Event.writeFile (osPathJoin d fn) content]))) ∧
    (∀ status content text, resp = Resp.success status content text → status ≠ 200 →
      s.download_file fn od resp =
        (none, [Event.httpGet (fileUrl s fn),
          Event.print ("Error downloading " ++ fn ++ ": " ++ toString status)])) ∧
    (∀ msg, resp = Resp.connError msg →
      s.download_file fn od resp =
        (none, [Event.httpGet (fileUrl s fn),
          Event.print ("Connection error downloading " ++ fn ++ ": " ++ msg)])) := by
  refine ⟨?_, ?_, ?_⟩
  · intro content text hresp
    subst hresp
    refine ⟨?_, ?_⟩
    · intro hod; subst hod
      simp [Scanner.download_file, strOptTruthy]
    · intro d hod hd; subst hod
      simp [Scanner.download_file, strOptTruthy, hd]
  · intro status content text hresp hst
    subst hresp
    simp [Scanner.download_file, hst]
  · intro msg hresp
    subst hresp
    simp [Scanner.download_file]

/-- C7 witness: a 200 download with output directory `"scans"` lands at
`scans/a.jpg` after a `makeDirs "scans"`. -/
theorem C7_download_file_cases_witness :
    Scanner.download_file ⟨"http://scan.home", none, []⟩ "a.jpg" (some "scans")
        (Resp.success 200 "DATA" "") =
      (some "scans/a.jpg",
        [Event.httpGet "http://scan.home/api/v1/files/a.jpg", Event.makeDirs "scans",
         Event.writeFile "scans/a.jpg" "DATA"]) :=
  ((C7_download_file_cases ⟨"http://scan.home", none, []⟩ "a.jpg" (some "scans")
    (Resp.success 200 "DATA" "")).1 "DATA" "" rfl).2 "scans" rfl (by decide)

/-- C10: with a device selected and a non-empty output directory, the
trace of `scan_a4` begins with the directory creation, then the
"Scanning..." print, then the POST of the scan request — so the directory
is created before the server is contacted, whatever the scan response
(including bad statuses and connection errors). -/
theorem C10_scan_a4_mkdir_before_post (s : Scanner) (sid : String)
    (hid : s.device_id = some sid) (hne : sid ≠ "") (d : String) (hd : d ≠ "")
    (r : Int) (m q : String) (resp : Resp (Option ScanFileInfo))
    (dl : String → Resp String) :
    (s.scan_a4 (some d) r m q resp dl).2.take 3 =
      [Event.makeDirs d, Event.print "Scanning...",
       Event.httpPost (scanUrl s) (mkScanRequest sid r m q)] := by
  cases resp with
  | success status body text =>
    by_cases hst : status = 200
    · cases body with
      | some fi =>
        simp [Scanner.scan_a4, hid, hne, hst, hd, strOptTruthy, apply_ite Prod.snd,
          apply_ite (List.take 3)]
      | none =>
        simp [Scanner.scan_a4, hid, hne, hst, hd, strOptTruthy]
    · simp [Scanner.scan_a4, hid, hne, hst, hd, strOptTruthy]
  | connError msg =>
    simp [Scanner.scan_a4, hid, hne, hd, strOptTruthy]

/-- C10 witness: device `dev1` selected, output directory `"scans"`, and
a scan that fails with a connection error — the trace still starts with
the directory creation followed by the POST. -/
theorem C10_scan_a4_mkdir_before_post_witness :
    (Scanner.scan_a4 ⟨"http://scan.home", some "dev1", []⟩ (some "scans") 200 "Color"
        "high" (Resp.connError "unreachable") (fun _ => Resp.connError "unreachable")).2.take 3 =
      [Event.makeDirs "scans", Event.print "Scanning...",
       Event.httpPost (scanUrl ⟨"http://scan.home", some "dev1", []⟩)
         (mkScanRequest "dev1" 200 "Color" "high")] :=
  C10_scan_a4_mkdir_before_post ⟨"http://scan.home", some "dev1", []⟩ "dev1" rfl (by decide)
    "scans" (by decide) 200 "Color" "high" (Resp.connError "unreachable")
    (fun _ => Resp.connError "unreachable")

/-- C3: `select_scanner(n)` with a cached device list of length `k`
succeeds exactly when `n` parses as an integer in `[1, k]`, recording the
id of the selected device and printing its name; it terminates the process
(exit 1) when the registry is empty after listing, when `n` does not
parse, or when the parsed value is outside `[1, k]`. -/
theorem C3_select_scanner (s : Scanner) (n : String)
    (resp : Resp (Option (List Device))) :
    (s.devices = [] → (s.list_scanners resp).1 = [] →
      s.select_scanner (PyVal.str n) resp =
        (Outcome.exited 1, (s.list_scanners resp).2.2
          ++ [Event.print "No scanners found", Event.exit 1])) ∧
    (s.devices ≠ [] →
      (∀ v : Int, pyIntStr n = some v → 1 ≤ v → v ≤ (s.devices.length : Int) →
        s.select_scanner (PyVal.str n) resp =
          (Outcome.normal { s with
              device_id := some ((s.devices.getD (v - 1).toNat ⟨"", ""⟩).id) },
            [Event.print ("Selected scanner: "
              ++ (s.devices.getD (v - 1).toNat ⟨"", ""⟩).name)])) ∧
      (∀ v : Int, pyIntStr n = some v → (v < 1 ∨ (s.devices.length : Int) < v) →
        s.select_scanner (PyVal.str n) resp =
          (Outcome.exited 1,
            [Event.print ("Invalid scanner number. Please choose between 1 and "
              ++ toString s.devices.length), Event.exit 1])) ∧
      (pyIntStr n = none →
        s.select_scanner (PyVal.str n) resp =
          (Outcome.exited 1,
            [Event.print "Invalid scanner number", Event.exit 1]))) := by
  constructor
  · intro h0 hlist
    cases resp with
    | success status body text =>
      by_cases hst : status = 200
      · have hb : body.getD [] = [] := by
          simpa [Scanner.list_scanners, hst] using hlist
        simp [Scanner.select_scanner, Scanner.list_scanners, h0, hst, hb, deviceListing]
      · simp [Scanner.select_scanner, Scanner.list_scanners, h0, hst]
    | connError msg =>
      simp [Scanner.select_scanner, Scanner.list_scanners, h0]
  · intro hne
    have hE : s.devices.isEmpty = false := by
      simp [List.isEmpty_iff, hne]
    refine ⟨?_, ?_, ?_⟩
    · intro v hv h1 h2
      have hc1 : 0 ≤ v - 1 := by omega
      have hc2 : v - 1 < (s.devices.length : Int) := by omega
      simp [Scanner.select_scanner, hE, pyInt, hv, hc1, hc2]
    · intro v hv hout
      simp [Scanner.select_scanner, hE, pyInt, hv]
      omega
    · intro hv
      simp [Scanner.select_scanner, hE, pyInt, hv]

/-- C3 witness: the scenario of the claim — the cached listing is
`[{id: "dev1", name: "Canon"}]`; selecting `"1"` records `"dev1"` and
prints the name, selecting `"2"` exits 1 with the range error. -/
theorem C3_select_scanner_witness :
    Scanner.select_scanner ⟨"http://scan.home", none, [⟨"dev1", "Canon"⟩]⟩ (PyVal.str "1")
        (Resp.connError "down") =
      (Outcome.normal ⟨"http://scan.home", some "dev1", [⟨"dev1", "Canon"⟩]⟩,
        [Event.print "Selected scanner: Canon"]) ∧
    Scanner.select_scanner ⟨"http://scan.home", none, [⟨"dev1", "Canon"⟩]⟩ (PyVal.str "2")
        (Resp.connError "down") =
      (Outcome.exited 1,
        [Event.print "Invalid scanner number. Please choose between 1 and 1",
         Event.exit 1]) := by
  constructor
  · have h := ((C3_select_scanner ⟨"http://scan.home", none, [⟨"dev1", "Canon"⟩]⟩ "1"
      (Resp.connError "down")).2 (by simp)).1 1 rfl (by decide) (by decide)
    simpa using h
  · have h := ((C3_select_scanner ⟨"http://scan.home", none, [⟨"dev1", "Canon"⟩]⟩ "2"
      (Resp.connError "down")).2 (by simp)).2.1 2 rfl (Or.inr (by decide))
    simpa using h

/-- C4: `scan_a4` tests `output_dir` for absence, not emptiness: on a
successful scan returning a file name, the download is attempted for
every non-`None` `output_dir` (the file GET appears in the trace); with
`output_dir = ""` the file is saved under its bare name in the current
directory; and with `output_dir = None` the run ends after reporting the
server-side file name, with no download. -/
theorem C4_output_dir_three_state (s : Scanner) (sid : String)
    (hid : s.device_id = some sid) (hne : sid ≠ "") (r : Int) (m q text : String)
    (fi : ScanFileInfo) (hfn : fi.name ≠ "") (dl : String → Resp String) :
    (∀ od : String,
      Event.httpGet (fileUrl s fi.name) ∈
        (s.scan_a4 (some od) r m q (Resp.success 200 (some fi) text) dl).2) ∧
    (∀ content dtext, dl fi.name = Resp.success 200 content dtext →
      s.scan_a4 (some "") r m q (Resp.success 200 (some fi) text) dl =
        (some fi.name,
          [Event.print "Scanning...",
           Event.httpPost (scanUrl s) (mkScanRequest sid r m q),
           Event.print "Scan successful!",
           Event.print ("File on server: " ++ fi.name),
           Event.print "Downloading...",
           Event.httpGet (fileUrl s fi.name),
           Event.writeFile fi.name content,
           Event.print ("Saved to: " ++ fi.name)])) ∧
    (s.scan_a4 none r m q (Resp.success 200 (some fi) text) dl =
      (none,
        [Event.print "Scanning...",
         Event.httpPost (scanUrl s) (mkScanRequest sid r m q),
         Event.print "Scan successful!",
         Event.print ("File on server: " ++ fi.name)])) := by
  refine ⟨?_, ?_, ?_⟩
  · intro od
    have hg := download_file_get_mem s fi.name (some od) (dl fi.name)
    rcases hv : (s.download_file fi.name (some od) (dl fi.name)).1 with _ | p
    · simp [Scanner.scan_a4, hid, hne, strOptTruthy, hv, hg]
    · by_cases hp : p = "" <;>
        simp [Scanner.scan_a4, hid, hne, strOptTruthy, hv, hp, hg]
  · intro content dtext hdl
    simp [Scanner.scan_a4, hid, hne, strOptTruthy, Scanner.download_file, hdl, hfn,
      scanUrl, mkScanRequest]
  · simp [Scanner.scan_a4, hid, hne, strOptTruthy, scanUrl, mkScanRequest]

/-- C4 witness: device selected, scan succeeded with file `scan.jpg`; the
empty-string output directory downloads to the bare file name. -/
theorem C4_output_dir_three_state_witness :
    Scanner.scan_a4 ⟨"http://scan.home", some "dev1", []⟩ (some "") 200 "Color" "high"
        (Resp.success 200 (some ⟨"scan.jpg"⟩) "") (fun _ => Resp.success 200 "DATA" "") =
      (some "scan.jpg",
        [Event.print "Scanning...",
         Event.httpPost (scanUrl ⟨"http://scan.home", some "dev1", []⟩)
           (mkScanRequest "dev1" 200 "Color" "high"),
         Event.print "Scan successful!",
         Event.print "File on server: scan.jpg",
         Event.print "Downloading...",
         Event.httpGet "http://scan.home/api/v1/files/scan.jpg",
         Event.writeFile "scan.jpg" "DATA",
         Event.print "Saved to: scan.jpg"]) := by
  have h := (C4_output_dir_three_state ⟨"http://scan.home", some "dev1", []⟩ "dev1" rfl
    (by decide) 200 "Color" "high" "" ⟨"scan.jpg"⟩ (by decide)
    (fun _ => Resp.success 200 "DATA" "")).2.1 "DATA" "" rfl
  simpa [fileUrl] using h

/-- Every file of the list is attempted by the download loop: its GET
appears in the trace of the loop, whatever the per-file responses. -/
lemma downloadLoop_attempts (s : Scanner) (od : Option String)
    (respFor : String → Resp String) (fs : List RemoteFile) (f : RemoteFile)
    (hf : f ∈ fs) :
    Event.httpGet (fileUrl s f.name) ∈ downloadLoop s od respFor fs := by
  induction fs with
  | nil => cases hf
  | cons a l ih =>
    rcases List.mem_cons.mp hf with h | h
    · subst h
      have hg := download_file_get_mem s f.name od (respFor f.name)
      simp [downloadLoop, hg]
    · simp [downloadLoop, ih h]

/-- C8: on a non-empty server file listing of length `k`, `download_all`
prints the total count `k` after the listing and before the download
loop, and the loop attempts every one of the `k` files (the GET of each file
is in the trace of the loop) — a failure of a single file does not abort the
remaining downloads, since the per-file responses `respFor` are
arbitrary. -/
theorem C8_download_all_count_then_attempts (s : Scanner) (od : Option String)
    (files : List RemoteFile) (text : String) (respFor : String → Resp String)
    (hne : files ≠ []) :
    s.download_all od (Resp.success 200 files text) respFor =
      (if strOptTruthy od then [Event.makeDirs (od.getD "")] else []) ++
        (Event.httpGet (filesUrl s) :: Event.print "\nFiles on server:" ::
          (files.map fun f => Event.print ("- " ++ f.name ++ " (" ++ f.sizeString ++ ")"))
          ++ [Event.print ""]) ++
        [Event.print ("Found " ++ toString files.length ++ " files")] ++
        downloadLoop s od respFor files ∧
    ∀ f ∈ files, Event.httpGet (fileUrl s f.name) ∈ downloadLoop s od respFor files := by
  constructor
  · have hE : files.isEmpty = false := by simp [List.isEmpty_iff, hne]
    simp [Scanner.download_all, Scanner.list_files, hE]
  · intro f hf
    exact downloadLoop_attempts s od respFor files f hf

/-- C8 witness: two files, the first download failing with a connection
error — the count is printed first and both files are attempted. -/
theorem C8_download_all_count_then_attempts_witness :
    Scanner.download_all ⟨"http://scan.home", none, []⟩ none
        (Resp.success 200 [⟨"a.jpg", "1 MB"⟩, ⟨"b.jpg", "2 MB"⟩] "")
        (fun fn => if fn = "a.jpg" then Resp.connError "down"
          else Resp.success 200 "DATA" "") =
      [Event.httpGet "http://scan.home/api/v1/files",
       Event.print "\nFiles on server:",
       Event.print "- a.jpg (1 MB)",
       Event.print "- b.jpg (2 MB)",
       Event.print "",
       Event.print "Found 2 files"] ++
        downloadLoop ⟨"http://scan.home", none, []⟩ none
          (fun fn => if fn = "a.jpg" then Resp.connError "down"
            else Resp.success 200 "DATA" "")
          [⟨"a.jpg", "1 MB"⟩, ⟨"b.jpg", "2 MB"⟩] ∧
    Event.httpGet "http://scan.home/api/v1/files/a.jpg" ∈
      downloadLoop ⟨"http://scan.home", none, []⟩ none
        (fun fn => if fn = "a.jpg" then Resp.connError "down"
          else Resp.success 200 "DATA" "")
        [⟨"a.jpg", "1 MB"⟩, ⟨"b.jpg", "2 MB"⟩] ∧
    Event.httpGet "http://scan.home/api/v1/files/b.jpg" ∈
      downloadLoop ⟨"http://scan.home", none, []⟩ none
        (fun fn => if fn = "a.jpg" then Resp.connError "down"
          else Resp.success 200 "DATA" "")
        [⟨"a.jpg", "1 MB"⟩, ⟨"b.jpg", "2 MB"⟩] := by
  have h := C8_download_all_count_then_attempts ⟨"http://scan.home", none, []⟩ none
    [⟨"a.jpg", "1 MB"⟩, ⟨"b.jpg", "2 MB"⟩] ""
    (fun fn => if fn = "a.jpg" then Resp.connError "down" else Resp.success 200 "DATA" "")
    (by simp)
  refine ⟨?_, ?_, ?_⟩
  · have h1 := h.1
    simpa [filesUrl, strOptTruthy] using h1
  · have h2 := h.2 ⟨"a.jpg", "1 MB"⟩ (by simp)
    simpa [fileUrl] using h2
  · have h3 := h.2 ⟨"b.jpg", "2 MB"⟩ (by simp)
    simpa [fileUrl] using h3

/-- Outcome of device selection on a freshly constructed scanner (empty
cache, as `main` builds it): exit 1 when the listing yields no devices or
the device number is out of range, and a normal outcome otherwise. -/
lemma select_scanner_fresh_fst (su : String) (dn : Int) (env : Env) :
    ((Scanner.mk su none []).select_scanner (PyVal.int dn) env.ctx).1 =
      (if listedDevices env = [] then Outcome.exited 1
       else if 0 ≤ dn - 1 ∧ dn - 1 < ((listedDevices env).length : Int) then
         Outcome.normal
           { server_url := su
             device_id := some (((listedDevices env).getD (dn - 1).toNat ⟨"", ""⟩).id)
             devices := listedDevices env }
       else Outcome.exited 1) := by
  rcases hc : env.ctx with ⟨st, b, tx⟩ | msg
  · by_cases hst : st = 200
    · by_cases hdev : b.getD [] = []
      · simp [Scanner.select_scanner, Scanner.list_scanners, listedDevices, hc, hst,
          hdev, pyInt]
      · have hE : (b.getD []).isEmpty = false := by simp [List.isEmpty_iff, hdev]
        simp [Scanner.select_scanner, Scanner.list_scanners, listedDevices, hc, hst,
          hdev, hE, pyInt, apply_ite Prod.fst]
    · simp [Scanner.select_scanner, Scanner.list_scanners, listedDevices, hc, hst, pyInt]
  · simp [Scanner.select_scanner, Scanner.list_scanners, listedDevices, hc, pyInt]

/-- The exit status of `main`: 0 on the listing path and when no scan is
requested; on the `--scan` path, 1 when the listing yields no devices or
the device number is out of range, 0 otherwise. -/
lemma main_exit_code (noArgs : Bool) (args : Args) (env : Env) :
    (Scanserv.main noArgs args env).1 =
      (if noArgs || args.list then 0
       else if args.scan then
         (if listedDevices env = [] then 1
          else if 0 ≤ args.device - 1 ∧
              args.device - 1 < ((listedDevices env).length : Int) then 0
          else 1)
       else 0) := by
  cases hna : (noArgs || args.list)
  · cases hs : args.scan
    · simp [Scanserv.main, mainScanPhase, hna, hs]
    · have hsel := select_scanner_fresh_fst args.server args.device env
      by_cases hdev : listedDevices env = []
      · rw [if_pos hdev] at hsel
        simp [Scanserv.main, mainScanPhase, hna, hs, hsel, hdev]
      · by_cases hr : 0 ≤ args.device - 1 ∧
            args.device - 1 < ((listedDevices env).length : Int)
        · rw [if_neg hdev, if_pos hr] at hsel
          simp [Scanserv.main, mainScanPhase, hna, hs, hsel, hdev, hr]
        · rw [if_neg hdev, if_neg hr] at hsel
          simp [Scanserv.main, mainScanPhase, hna, hs, hsel, hdev, hr]
          have hr2 : ¬(1 ≤ args.device ∧
              args.device - 1 < ((listedDevices env).length : Int)) := by omega
          rw [if_neg hr2]
  · simp [Scanserv.main, hna]

/-- C9 counterexample: a `--list` run whose device listing succeeds with
zero devices (no scanners are found) still exits with status 0, refuting
the claim that the process exits non-zero exactly when no scanners are
found or the device number is invalid. -/
theorem C9_counterexample :
    (Scanserv.main false
        { server := "http://scan.home", device := 1, list := true, scan := false,
          no_download := false, download_all := false, download := none,
          output_dir := some "scans", resolution := 200, mode := "Color",
          quality := "high" }
        { ctx := Resp.success 200 (some []) "", files := Resp.success 200 [] "",
          fileContent := fun _ => Resp.connError "unreachable",
          scanResp := Resp.connError "unreachable" }).1 = 0 ∧
    listedDevices
        { ctx := Resp.success 200 (some []) "", files := Resp.success 200 [] "",
          fileContent := fun _ => Resp.connError "unreachable",
          scanResp := Resp.connError "unreachable" } = [] := by
  constructor
  · simp [Scanserv.main]
  · simp [listedDevices]

/-- C9 (amended): the process exits with a non-zero status exactly when a
scan is requested (the `--scan` path runs, i.e. neither the no-argument
nor the `--list` listing path was taken) and the device selection fails —
the listing yields no devices, or the device number lies outside
`[1, k]`; every other run exits 0, even when individual HTTP calls fail
(the argparse stage, which itself exits non-zero on an unparseable
`--device`, runs before this model begins). -/
theorem C9_exit_nonzero_iff (noArgs : Bool) (args : Args) (env : Env) :
    (Scanserv.main noArgs args env).1 ≠ 0 ↔
      (noArgs = false ∧ args.list = false ∧ args.scan = true ∧
        (listedDevices env = [] ∨ args.device < 1 ∨
          ((listedDevices env).length : Int) < args.device)) := by
  rw [main_exit_code]
  cases hn : noArgs
  · cases hl : args.list
    · cases hs : args.scan
      · simp
      · by_cases hdev : listedDevices env = []
        · simp [hdev]
        · by_cases hr : 0 ≤ args.device - 1 ∧
              args.device - 1 < ((listedDevices env).length : Int)
          · have h0 : (if listedDevices env = [] then 1
                else if 0 ≤ args.device - 1 ∧
                    args.device - 1 < ((listedDevices env).length : Int) then 0
                else (1 : Nat)) = 0 := by rw [if_neg hdev, if_pos hr]
            simp [h0, hdev]
            omega
          · have h1 : (if listedDevices env = [] then 1
                else if 0 ≤ args.device - 1 ∧
                    args.device - 1 < ((listedDevices env).length : Int) then 0
                else (1 : Nat)) = 1 := by rw [if_neg hdev, if_neg hr]
            simp [h1, hdev]
            omega
    · simp
  · simp

end Scanserv
